import Mathlib

/-!
Verification development for the SCALE-MS workshop repository
(`scalems_workshop`): a shallow embedding in Lean 4 of the subgraph /
deferred-task composition layer (`subgraph.py`, `_abc.py`) and of the
executable-argument builder (`commands/executable.py`), together with
theorems settling the specification claims about them.

Python dynamic values are embedded as inductive types; Python dictionaries
are embedded as insertion-ordered association lists; raised exceptions are
embedded as `Except` error results; Python's recursion limit is embedded as
an explicit fuel parameter where the source recursion is not structural.
-/

namespace ScalemsWorkshop

/-! ## Subgraph variables (`subgraph.py`, `_SubgraphVariableEditor`)

`_SubgraphVariableEditor.__init__(default)` stores `self._substep_value = [default]`;
`set(update)` appends; `get()` computes `substep = len(self._substep_value) - 1`,
asserts `substep >= 0`, and returns
`_SubstepVariableReference(substep=substep, referent=self._substep_value[substep])`.
-/

/-- Embeds `_SubstepVariableReference(substep, referent)` from `subgraph.py`. -/
structure SubstepVariableReference (α : Type) where
  substep : Nat
  referent : α
  deriving Repr, DecidableEq

/-- Embeds the state of a `_SubgraphVariableEditor`: the single mutable field
`_substep_value` (a Python list). The `_key`, `_shape`, `_state`, `_type`
attributes set by `__init__` are constants not consulted by `set`/`get` and are
omitted from the state. -/
structure SubgraphVariableEditor (α : Type) where
  substep_value : List α
  deriving Repr, DecidableEq

/-- Embeds `subgraph.output_variable(default)`, i.e.
`_SubgraphVariableEditor.__init__`: `self._substep_value = [default]`. -/
def output_variable {α : Type} (default : α) : SubgraphVariableEditor α :=
  ⟨[default]⟩

/-- Embeds `_SubgraphVariableEditor.set(update)`:
`self._substep_value.append(update)`. -/
def SubgraphVariableEditor.set {α : Type} (st : SubgraphVariableEditor α)
    (update : α) : SubgraphVariableEditor α :=
  ⟨st.substep_value ++ [update]⟩

/-- Embeds `_SubgraphVariableEditor.get()`: `substep = len(self._substep_value) - 1`;
`assert substep >= 0`; `return _SubstepVariableReference(substep, self._substep_value[substep])`.
Indexing a nonempty Python list at `len - 1` yields its last element; the
assertion fails exactly when the list is empty, embedded as `none`. -/
def SubgraphVariableEditor.get {α : Type} (st : SubgraphVariableEditor α) :
    Option (SubstepVariableReference α) :=
  match st.substep_value with
  | [] => none
  | v :: vs => some ⟨(v :: vs).length - 1, (v :: vs).getLast (List.cons_ne_nil v vs)⟩

/-- The `get` method of `_SubgraphVariableEditor` as a state transformer: its
body only reads `len(self._substep_value)` and `self._substep_value[substep]`
and performs no assignment, so the post-state equals the pre-state. -/
def SubgraphVariableEditor.getM {α : Type} (st : SubgraphVariableEditor α) :
    Option (SubstepVariableReference α) × SubgraphVariableEditor α :=
  (st.get, st)

/-- An editor seeded with default `d` on which the updates `us` have been
applied by successive `set` calls, in order. -/
def mkEditor {α : Type} (d : α) (us : List α) : SubgraphVariableEditor α :=
  us.foldl SubgraphVariableEditor.set (output_variable d)

/-- A call made on a `_SubgraphVariableEditor`: either `set(v)` or `get()`. -/
inductive VarOp (α : Type) where
  | set (v : α)
  | get
  deriving Repr, DecidableEq

/-- Whether an editor call is a `set` call. -/
def VarOp.isSet {α : Type} : VarOp α → Bool
  | .set _ => true
  | .get => false

/-- State evolution of a `_SubgraphVariableEditor` under one method call:
`set` appends to the write history; `get` leaves the state as computed by
`getM` (the method body contains no assignment). -/
def applyVarOp {α : Type} (st : SubgraphVariableEditor α) :
    VarOp α → SubgraphVariableEditor α
  | .set v => st.set v
  | .get => st.getM.2

/-- State of a `_SubgraphVariableEditor` after a sequence of method calls. -/
def runVarOps {α : Type} (st : SubgraphVariableEditor α) (ops : List (VarOp α)) :
    SubgraphVariableEditor α :=
  ops.foldl applyVarOp st

/-! ## Conditions (`subgraph.py`: `_ConditionAnnotation`, `logical_not`,
`_translate_condition`) -/

/-- Embedded Python values, as far as the subgraph layer inspects them:
opaque objects and the result of calling a recorded callable (identified by a
numeric id) on captured arguments. -/
inductive PyVal where
  | obj (tag : String)
  | applied (func : Nat) (args : List PyVal) (kwargs : List (String × PyVal))
  deriving Repr

/-- Embedded Python values that can be passed as a `condition`: a
`_SubgraphVariableDescriptor` instance, a `_ConditionAnnotation` (fields
`source` and `transformation`), or any other object (which
`_translate_condition` has no handler for). -/
inductive PyCond where
  | variableDescriptor (key : String) (default_value : PyVal)
  | condAnnot (source : PyCond) (transformation : String)
  | otherObj (tag : String)
  deriving Repr

/-- Embeds `subgraph.logical_not(condition)`:
`return _ConditionAnnotation(source=condition, transformation='logical_not')`. -/
def logical_not (condition : PyCond) : PyCond :=
  .condAnnot condition "logical_not"

/-- Engine-side (gmxapi) condition expressions: a translated subgraph-variable
handle, or `gmxapi.logical_not` applied to a condition. -/
inductive GmxCond where
  | handle (tag : String)
  | gmxLogicalNot (c : GmxCond)
  deriving Repr, DecidableEq

/-- Exceptions raised by the embedded subgraph layer. -/
inductive SubgraphErr where
  | runtimeMissingImpl        -- RuntimeError in the `_SubgraphVariableDescriptor` branch
  | valueNotImplemented       -- ValueError for a transformation other than logical_not
  | valueNoHandler            -- ValueError for a condition type with no handler
  | valueUnsupportedOperation -- ValueError from the `while_loop` isinstance guard
  | recursionLimit            -- Python RecursionError once the call depth is exhausted
  deriving Repr, DecidableEq

/-- Embeds `subgraph._translate_condition(condition, subgraph)`. The source
dispatches on the runtime type of `condition`; in the `_ConditionAnnotation`
branch it computes
`gmxapi.logical_not(_translate_condition(condition, subgraph))` — note that the
recursive call receives `condition` itself, not `condition.source`, so the
recursion is not structural; the `fuel` parameter embeds Python's bounded call
depth, with exhaustion raising `RecursionError`. The `subgraph` argument is
threaded unchanged and never consulted before an exception is raised, so it is
omitted here. -/
def translate_condition : Nat → PyCond → Except SubgraphErr GmxCond
  | 0, _ => .error .recursionLimit
  | _ + 1, .variableDescriptor _ _ => .error .runtimeMissingImpl
  | fuel + 1, .condAnnot source t =>
      if t ≠ "logical_not" then .error .valueNotImplemented
      else (translate_condition fuel (.condAnnot source t)).map .gmxLogicalNot
  | _ + 1, .otherObj _ => .error .valueNoHandler

/-! ## `Reference.result` (`_abc.py`) -/

/-- A referent with a concrete value: its `result()` method returns that
value. -/
structure ConcreteReferent (α : Type) where
  value : α
  deriving Repr, DecidableEq

/-- `result()` of a concrete referent. -/
def ConcreteReferent.result {α : Type} (r : ConcreteReferent α) : α :=
  r.value

/-- Embeds `_abc.Reference` restricted to the data its `result` method could
use: the `referent` attribute. -/
structure Reference (α : Type) where
  referent : ConcreteReferent α
  deriving Repr, DecidableEq

/-- Embeds `Reference.result`, whose entire body is `return self.result()`:
every call re-invokes the same method on the same unchanged `self`. The `fuel`
parameter embeds Python's bounded call depth; exhausting it raises
`RecursionError` (`SubgraphErr.recursionLimit`). -/
def Reference.result_call {α : Type} :
    Nat → Reference α → Except SubgraphErr α
  | 0, _ => .error .recursionLimit
  | fuel + 1, self => Reference.result_call fuel self

/-! ## `while_loop` (`subgraph.py`) -/

/-- Embeds the `Step` record hierarchy of `subgraph.py`: an `AddStep` carries
`key`, `func`, `args`, `kwargs` and has `command == Command.ADD`; a `SetStep`
carries `key`, `source` and has `command == Command.SET`. The `command` tag and
the dataclass subtype always agree (each constructor sets both together), so
the tagged union embeds both. -/
inductive Step where
  | addStep (key : String) (func : Nat) (args : List PyVal)
      (kwargs : List (String × PyVal))
  | setStep (key : String) (source : PyVal)
  deriving Repr

/-- One attribute found on the `operation` object by `dir(operation)`: either a
`_SubgraphVariableDescriptor` (whose `default()` method returns its
`_default_value`) or any other attribute. -/
inductive SubgraphAttr where
  | descriptor (default_value : PyVal)
  | nonDescriptor (tag : String)
  deriving Repr

/-- The data of a Subgraph class declaration as `while_loop` consumes it: its
attribute listing (`dir(operation)` with the value of each attribute) and its
recorded step log (`operation.dag()`; no `dag` method is defined anywhere in
the repository, so this field models the step log the spec describes the
declaration to carry). -/
structure SubgraphDecl where
  attrs : List (String × SubgraphAttr)
  dag : List Step
  deriving Repr

/-- Embeds `isinstance(operation, Subgraph)` for the values the annotation
`operation: typing.Type[Subgraph]` admits: `operation` is a class object (the
examples pass the declared class itself, e.g. `SimulationAnalysis`).
`isinstance(cls, Subgraph)` holds only when `type(cls)` is `Subgraph` or a
subclass of it; a class declaration is an instance of its metaclass
(`SubgraphMeta`, or `type`), which is not a subclass of `Subgraph`, so the
check is `False` for every Subgraph class declaration. -/
def isinstance_Subgraph (_operation : SubgraphDecl) : Bool :=
  false

/-- The loop-body state built while replaying the step log inside the
`with _subgraph:` block: `internal_handles` (a Python dict, keyed by step key)
and the sequence of `setattr(_subgraph, step.key, step.source)` calls. -/
structure LoopBodyState where
  internal_handles : List (String × PyVal)
  assignments : List (String × PyVal)
  deriving Repr

/-- Python dict assignment `d[k] = v` on an insertion-ordered association
list: an existing key keeps its position and has its value replaced; a new key
is appended. -/
def dictSet {β : Type} (d : List (String × β)) (k : String) (v : β) :
    List (String × β) :=
  if d.any (fun kv => kv.1 == k) then
    d.map (fun kv => if kv.1 == k then (k, v) else kv)
  else
    d ++ [(k, v)]

/-- Embeds one iteration of the replay loop in `while_loop`:
`Command.ADD` stores `step.func(*step.args, **step.kwargs)` in
`internal_handles[step.key]`; `Command.SET` performs
`setattr(_subgraph, step.key, step.source)`. -/
def replayStep (st : LoopBodyState) : Step → LoopBodyState
  | .addStep key func args kwargs =>
      { st with internal_handles :=
          dictSet st.internal_handles key (.applied func args kwargs) }
  | .setStep key source =>
      { st with assignments := st.assignments ++ [(key, source)] }

/-- The value `while_loop` hands to `gmxapi.while_loop`: the seeded variable
slots, the replayed loop body, the translated condition, and the iteration
cap. -/
structure GmxWhileLoop where
  state_slots : List (String × PyVal)
  body : LoopBodyState
  condition : GmxCond
  max_iteration : Nat
  deriving Repr

/-- Embeds the body of `subgraph.while_loop` after its `isinstance` guard:
enumerate `dir(operation)`, keeping `variables[key] = attr.default()` for each
`_SubgraphVariableDescriptor` attribute; replay `operation.dag()` in order;
translate the condition; hand everything to `gmxapi.while_loop`. -/
def while_loop_body (operation : SubgraphDecl) (condition : PyCond)
    (max_iteration : Nat) (fuel : Nat) : Except SubgraphErr GmxWhileLoop :=
  let slots := operation.attrs.foldl
    (fun vs kv =>
      match kv.2 with
      | .descriptor default_value => dictSet vs kv.1 default_value
      | .nonDescriptor _ => vs)
    []
  let body := operation.dag.foldl replayStep ⟨[], []⟩
  match translate_condition fuel condition with
  | .error e => .error e
  | .ok c => .ok ⟨slots, body, c, max_iteration⟩

/-- Embeds `subgraph.while_loop(operation, condition=..., max_iteration=10)`:
`if not isinstance(operation, Subgraph): raise ValueError(...)`, then seed the
variables, replay the step log, and translate the condition. -/
def while_loop (operation : SubgraphDecl) (condition : PyCond)
    (max_iteration : Nat := 10) (fuel : Nat := 1000) :
    Except SubgraphErr GmxWhileLoop :=
  if !(isinstance_Subgraph operation) then
    .error .valueUnsupportedOperation
  else
    while_loop_body operation condition max_iteration fuel

/-! ## Executable-argument builder (`commands/executable.py`)

`Executable._parse_argv` partitions one argv sequence into the executable
name, positional arguments, an input-file flag dict, and an output-file flag
dict, and registers a `_GetItemFuture` in `self.output_file` for each output
placeholder; `Executable.create` validates `argv`, detects ensemble input, and
assembles the keyword arguments for `gmxapi.commandline_operation`.
-/

/-- Embedded Python objects as far as `executable.py` inspects them: `str`,
`pathlib.Path`, `gmxapi.abc.Future`, `scalems_workshop` `Reference`,
`OutputFilePlaceholder`, `bytes`, and (possibly nested) sequences. -/
inductive PyObj where
  | str (s : String)
  | path (p : String)
  | future (id : Nat)
  | reference (id : Nat)
  | outputFilePlaceholder (label : String) (filepath : String)
  | bytes (len : Nat)
  | list (elems : List PyObj)
  deriving Repr

/-- `isinstance(x, str)`. -/
def PyObj.isStr : PyObj → Bool
  | .str _ => true
  | _ => false

/-- `isinstance(x, (str, bytes))`. -/
def PyObj.isStrOrBytes : PyObj → Bool
  | .str _ => true
  | .bytes _ => true
  | _ => false

/-- `isinstance(x, collections.abc.Sequence)`: `str`, `bytes` and `list` are
sequences; `pathlib.Path`, futures, references and placeholders are not. -/
def PyObj.isSequence : PyObj → Bool
  | .str _ => true
  | .bytes _ => true
  | .list _ => true
  | _ => false

/-- `isinstance(x, (str, pathlib.Path))`. -/
def PyObj.isStrOrPath : PyObj → Bool
  | .str _ => true
  | .path _ => true
  | _ => false

/-- `isinstance(x, gmxapi.abc.Future)`. -/
def PyObj.isFuture : PyObj → Bool
  | .future _ => true
  | _ => false

/-- `isinstance(x, Reference)`. -/
def PyObj.isReference : PyObj → Bool
  | .reference _ => true
  | _ => false

/-- `isinstance(x, OutputFilePlaceholder)`. -/
def PyObj.isPlaceholder : PyObj → Bool
  | .outputFilePlaceholder _ _ => true
  | _ => false

/-- `len(x)` for the embedded sequence objects. -/
def PyObj.pyLen : PyObj → Nat
  | .str s => s.length
  | .bytes n => n
  | .list elems => elems.length
  | _ => 0

/-- `str(x)`. For `str` and `pathlib.Path` values this is the carried text;
for the remaining objects Python produces a type-and-identity description,
embedded here as a distinguishing string (its exact text is immaterial: the
source applies `str()` only to build `executable` and positional-argument
entries). -/
def PyObj.pyStr : PyObj → String
  | .str s => s
  | .path p => p
  | .future id => "Future-" ++ toString id
  | .reference id => "Reference-" ++ toString id
  | .outputFilePlaceholder label filepath =>
      "OutputFilePlaceholder-" ++ label ++ "-" ++ filepath
  | .bytes n => "bytes-" ++ toString n
  | .list _ => "list"

/-- Modelled from the spec: `OutputFilePlaceholder.label`. The module
`scalems_workshop.util` defining `OutputFilePlaceholder` is not in the
repository sources; per the spec an output-file placeholder is created with a
label (`output_file(..., label=...)`) carried for registering the named
output. -/
def PyObj.label : PyObj → String
  | .outputFilePlaceholder label _ => label
  | _ => ""

/-- Modelled from the spec: `scalems_workshop.util.get_path`, missing from the
repository sources along with `OutputFilePlaceholder`. Per the spec the
output-file mapping sends each output flag to the placeholder's filesystem
path, so `get_path` extracts that path. -/
def get_path : PyObj → String
  | .outputFilePlaceholder _ filepath => filepath
  | _ => ""

/-- Structural equality of embedded Python objects, matching `==` (and, on
the states `_parse_argv` reaches, the `is` identity tests) on the values the
source compares: strings, paths and the distinct opaque objects. -/
def PyObj.beq : PyObj → PyObj → Bool
  | .str a, .str b => a == b
  | .path a, .path b => a == b
  | .future a, .future b => a == b
  | .reference a, .reference b => a == b
  | .outputFilePlaceholder a b, .outputFilePlaceholder c d => a == c && b == d
  | .bytes a, .bytes b => a == b
  | _, _ => false

instance : BEq PyObj := ⟨PyObj.beq⟩

/-- Exceptions raised by the embedded `executable.py`. Each constructor
carries the identifying message text (f-string interpolations elided). -/
inductive ExecErr where
  | typeError (msg : String)
  | valueError (msg : String)
  | missingImplementationError
  | assertionError
  deriving Repr, DecidableEq

/-- Embeds `_ParsedArgs` from `executable.py`. `arguments` holds embedded
Python objects because the final positional argument is appended without a
`str()` conversion (line 215 of the source), unlike the earlier ones. -/
structure ParsedArgs where
  executable : String
  arguments : List PyObj := []
  input_files : List (PyObj × PyObj) := []
  output_files : List (PyObj × String) := []
  deriving Repr

/-- Embeds `_GetItemFuture(owner=self, attr='file', item=item, key=flag)` as
registered in `Executable.output_file`; the back-pointer `owner` is the
enclosing `Executable` and is omitted. -/
structure GetItemFuture where
  attr : String
  item : String
  key : PyObj
  deriving Repr

/-- `k in d` for an embedded Python dict. -/
def assocContains {β : Type} (d : List (PyObj × β)) (k : PyObj) : Bool :=
  d.any (fun kv => kv.1 == k)

/-- `d[k] = v` for an embedded Python dict with `PyObj` keys: an existing key
keeps its position, a new key is appended. -/
def assocSet {β : Type} (d : List (String × β)) (k : String) (v : β) :
    List (String × β) :=
  if d.any (fun kv => kv.1 == k) then
    d.map (fun kv => if kv.1 == k then (k, v) else kv)
  else
    d ++ [(k, v)]

/-- Outcome of the first scan loop of `_parse_argv` (`for i, arg in
enumerate(argv[2:], start=2)`): it either runs to completion with `flag` still
`None`, or it breaks at the first Future (recording the input flag), or it
breaks at the first output placeholder (recording the output flag); in each
break case the unprocessed tail of `argv` follows `arg`. -/
inductive Scan1Out where
  | noFlag (arguments : List PyObj) (previous : PyObj)
  | breakInput (arguments : List PyObj) (flag : PyObj) (fut : PyObj)
      (rest : List PyObj)
  | breakOutput (arguments : List PyObj) (flag : PyObj) (ph : PyObj)
      (rest : List PyObj)

/-- Embeds the first scan loop of `_parse_argv`: strings and paths extend the
positional arguments (the previous element, `str()`-converted, is shifted into
`arguments`); the first `gmxapi.abc.Future` makes the previous element the
first input flag and breaks; a `Reference` raises
`MissingImplementationError`; the first `OutputFilePlaceholder` makes the
previous element the first output flag and breaks; anything else raises
`ValueError`. -/
def scanPositional (arguments : List PyObj) (previous : PyObj) :
    List PyObj → Except ExecErr Scan1Out
  | [] => .ok (.noFlag arguments previous)
  | arg :: rest =>
      if arg.isStrOrPath then
        scanPositional (arguments ++ [.str previous.pyStr]) arg rest
      else if arg.isFuture || arg.isReference then
        if arg.isFuture then
          .ok (.breakInput arguments previous arg rest)
        else
          .error .missingImplementationError
      else if arg.isPlaceholder then
        .ok (.breakOutput arguments previous arg rest)
      else
        .error (.valueError "Invalid element in argv")

/-- Embeds the second scan loop of `_parse_argv` (`for arg in argv[i + 1:]`):
a string becomes the next flag (raising on two flags in sequence — the
preceding `assert previous_arg is flag` is embedded by the equality test — and
on duplicated flags); an `OutputFilePlaceholder` or `gmxapi.abc.Future` files
itself under the current flag after the input/output consistency checks;
anything else (including `pathlib.Path`) raises `ValueError`. Returns the
final `flag`, `previous_arg`, both file dicts, and the `self.output_file`
registry. -/
def scanIOFlags (flag previous : PyObj)
    (input_files : List (PyObj × PyObj)) (output_files : List (PyObj × String))
    (output_file : List (String × GetItemFuture)) :
    List PyObj →
      Except ExecErr
        (PyObj × PyObj × List (PyObj × PyObj) × List (PyObj × String) ×
          List (String × GetItemFuture))
  | [] => .ok (flag, previous, input_files, output_files, output_file)
  | arg :: rest =>
      if arg.isStr then
        if previous.isStr then
          if previous == flag then
            .error (.valueError "Flags appeared in sequence where input and output flags and arguments are expected")
          else
            .error .assertionError
        else if assocContains input_files arg || assocContains output_files arg then
          .error (.valueError "Duplicated input and output file flags not supported")
        else
          scanIOFlags arg arg input_files output_files output_file rest
      else if arg.isPlaceholder then
        if assocContains input_files flag then
          .error (.valueError "Output file provided to an input file flag")
        else if assocContains output_files flag then
          .error (.valueError "Output file provided to a flag that is already set")
        else
          scanIOFlags flag arg input_files (output_files ++ [(flag, get_path arg)])
            (assocSet output_file arg.label ⟨"file", arg.label, flag⟩) rest
      else if arg.isFuture then
        if assocContains output_files flag then
          .error (.valueError "Input file provided to an output file flag")
        else if assocContains input_files flag then
          .error (.valueError "Input file provided to a flag that is already set")
        else
          scanIOFlags flag arg (input_files ++ [(flag, arg)]) output_files
            output_file rest
      else
        .error (.valueError "Cannot process input and output file argument")

/-- Embeds `Executable._parse_argv(argv)` together with the
`self.output_file` registrations it performs. Follows the source: the
type check on `argv`; `executable = str(argv[0])`; the single-element early
return; the positional-argument check on `argv[1]`; the first scan loop; the
`flag is None` early return (which appends the final `previous_arg`
unconverted); seeding the file dict from the break element; the second scan
loop; and the final trailing-flag check (`flag is previous_arg`, embedded as
equality, which coincides with identity on every reachable state: `flag` is
aliased to `previous_arg` exactly when the last processed element was a string
flag). -/
def parse_argv (argv : PyObj) :
    Except ExecErr (ParsedArgs × List (String × GetItemFuture)) :=
  if argv.isStrOrBytes || !argv.isSequence || argv.pyLen == 0 then
    .error (.typeError "argv must be the array of command line arguments")
  else
    match argv with
    | .list (first :: restAll) =>
      let executable := first.pyStr
      match restAll with
      | [] => .ok ({ executable }, [])
      | second :: rest2 =>
        if !second.isStrOrPath then
          .error (.valueError "Unsupported command line syntax")
        else
          match scanPositional [] second rest2 with
          | .error e => .error e
          | .ok (.noFlag arguments previous) =>
              .ok ({ executable, arguments := arguments ++ [previous] }, [])
          | .ok (.breakInput arguments flag fut rest) =>
              match scanIOFlags flag fut [(flag, fut)] [] [] rest with
              | .error e => .error e
              | .ok (flag', previous', ins, outs, registry) =>
                  if flag' == previous' then
                    .error (.valueError "Got flag with no arguments")
                  else
                    .ok ({ executable, arguments, input_files := ins,
                           output_files := outs }, registry)
          | .ok (.breakOutput arguments flag ph rest) =>
              match scanIOFlags flag ph [] [(flag, get_path ph)]
                  [(ph.label, ⟨"file", ph.label, flag⟩)] rest with
              | .error e => .error e
              | .ok (flag', previous', ins, outs, registry) =>
                  if flag' == previous' then
                    .error (.valueError "Got flag with no arguments")
                  else
                    .ok ({ executable, arguments, input_files := ins,
                           output_files := outs }, registry)
    | _ =>
      -- unreachable: every non-`list` object fails the sequence checks above
      .error (.typeError "argv must be the array of command line arguments")

/-- The list comprehension `[cmd._parse_argv(element) for element in argv]`:
evaluates left to right, propagating the first raised exception. -/
def mapExcept {ε α β : Type} (f : α → Except ε β) : List α → Except ε (List β)
  | [] => .ok []
  | a :: l =>
      match f a with
      | .error e => .error e
      | .ok b =>
          match mapExcept f l with
          | .error e => .error e
          | .ok bs => .ok (b :: bs)

/-- The `_kwargs` record `Executable.create` assembles for
`gmxapi.commandline_operation`: either a single task or an ensemble.
(`stdin` and `env` keep their `None` defaults.) -/
inductive CreateKwargs where
  | single (executable : String) (arguments : List PyObj)
      (input_files : List (PyObj × PyObj)) (output_files : List (PyObj × String))
  | ensemble (executable : String) (argumentsList : List (List PyObj))
      (inputFilesList : List (List (PyObj × PyObj)))
      (outputFilesList : List (List (PyObj × String)))
  deriving Repr

/-- The `Executable` instance as `create` returns it: the assembled `_kwargs`,
the `output_file` registry, and the computed ensemble `width` (written into
each registered future's result description). No task is constructed by
`create`: the `task` property builds the `gmxapi.commandline_operation`
lazily, on first access, after `create` has returned. -/
structure ExecutableModel where
  kwargs : CreateKwargs
  output_file : List (String × GetItemFuture)
  width : Nat
  deriving Repr

/-- The ensemble constraint check of `Executable.create`:
`all(_executable == kwargs.executable for kwargs in kwargs_list)` with
`_executable = kwargs_list[0].executable`. -/
def ensembleSameExecutable (p0 : ParsedArgs) (ks : List ParsedArgs) : Bool :=
  ks.all (fun k => p0.executable == k.executable)

/-- Embeds `Executable.create(argv)` with the default `stdin=None, env=None`
(the `stdin` validation block is skipped for `None`). Follows the source: the
type check on `argv`; the ensemble test on `argv[0]`; in the ensemble branch,
parsing every member against the one shared `Executable` (so the
`output_file` registries accumulate in order), then requiring every member's
executable to equal the first member's; in the single branch, one
`_parse_argv` call. `width` is
`max(len(item) for item in cmd._kwargs.values() if isinstance(item, list))`:
the member count for an ensemble (all three per-member lists have that
length), the positional-argument count for a single task (`arguments` is the
only list among the values). -/
def Executable.create (argv : PyObj) : Except ExecErr ExecutableModel :=
  if !argv.isSequence || argv.isStrOrBytes || argv.pyLen == 0 then
    .error (.typeError "argv must be a sequence of command line arguments")
  else
    match argv with
    | .list (first :: rest) =>
      if first.isSequence && !first.isStrOrBytes then
        match mapExcept parse_argv (first :: rest) with
        | .error e => .error e
        | .ok parses =>
          match parses with
          | [] =>
              -- unreachable: `first :: rest` is nonempty
              .error (.typeError "argv must be a sequence of command line arguments")
          | p0 :: _ =>
            if !(ensembleSameExecutable p0.1 (parses.map Prod.fst)) then
              .error (.valueError "Ensemble command line operations must use the same command line tool")
            else
              .ok { kwargs := .ensemble p0.1.executable
                      ((parses.map Prod.fst).map ParsedArgs.arguments)
                      ((parses.map Prod.fst).map ParsedArgs.input_files)
                      ((parses.map Prod.fst).map ParsedArgs.output_files),
                    output_file := parses.foldl
                      (fun acc pr => pr.2.foldl
                        (fun a kv => assocSet a kv.1 kv.2) acc) [],
                    width := parses.length }
      else
        match parse_argv (.list (first :: rest)) with
        | .error e => .error e
        | .ok (pa, registry) =>
            .ok { kwargs := .single pa.executable pa.arguments pa.input_files
                    pa.output_files,
                  output_file := registry,
                  width := pa.arguments.length }
    | _ =>
      -- unreachable: every non-`list` object fails the checks above
      .error (.typeError "argv must be a sequence of command line arguments")

/-! ## Helper lemmas -/

/-- The write history of a fold of `set` calls is the starting history with the
updates appended in order. -/
theorem foldl_set_substep_value {α : Type} (us : List α)
    (st : SubgraphVariableEditor α) :
    (us.foldl SubgraphVariableEditor.set st).substep_value
      = st.substep_value ++ us := by
  induction us generalizing st with
  | nil => simp
  | cons u us ih =>
      simp [List.foldl_cons, ih, SubgraphVariableEditor.set]

/-- The write history of `mkEditor d us` is `d :: us`. -/
theorem mkEditor_substep_value {α : Type} (d : α) (us : List α) :
    (mkEditor d us).substep_value = d :: us := by
  simp [mkEditor, foldl_set_substep_value, output_variable]

/-- Inversion for `mapExcept` on a nonempty list with an `ok` result. -/
theorem mapExcept_cons_ok {ε α β : Type} {f : α → Except ε β} {a : α}
    {l : List α} {res : List β} (h : mapExcept f (a :: l) = .ok res) :
    ∃ b bs, f a = .ok b ∧ mapExcept f l = .ok bs ∧ res = b :: bs := by
  simp only [mapExcept] at h
  cases hfa : f a with
  | error e => rw [hfa] at h; cases h
  | ok b =>
      rw [hfa] at h
      cases hml : mapExcept f l with
      | error e => rw [hml] at h; cases h
      | ok bs =>
          rw [hml] at h
          cases h
          exact ⟨b, bs, rfl, rfl, rfl⟩

/-! ## Claim theorems -/

/-- C1. The claim says `while_loop` seeds one persistent state slot per
declared `SubgraphVariable` (each at its default) for every Subgraph
declaration passed as `operation`, then replays the step log in order. On the
code this fails before any seeding: `while_loop` guards with
`isinstance(operation, Subgraph)`, which is `False` for every Subgraph class
declaration (a class is an instance of its metaclass, not of `Subgraph`), so
every call raises `ValueError` immediately — for any condition, iteration cap
and recursion budget. -/
theorem while_loop_rejects_every_subgraph_declaration
    (operation : SubgraphDecl) (condition : PyCond) (mi fuel : Nat) :
    while_loop operation condition mi fuel
      = .error .valueUnsupportedOperation := rfl

/-- C2. After `set(v1)` then `set(v2)` on a variable created with default `d`,
`get()` returns the reference with referent `v2` and substep index `2`;
the default write counts as substep `0`, and after any sequence of `us`
further `set` calls the substep index of `get()` is exactly `us.length`
(each `set` increases it by one). -/
theorem variable_set_set_get_yields_latest {α : Type} (d v1 v2 : α)
    (us : List α) :
    (((output_variable d).set v1).set v2).get = some ⟨2, v2⟩
      ∧ (output_variable d).get = some ⟨0, d⟩
      ∧ ((mkEditor d us).get).map SubstepVariableReference.substep
          = some us.length := by
  refine ⟨rfl, rfl, ?_⟩
  cases e : mkEditor d us with
  | mk l =>
      have hl : l = d :: us := by
        have h := mkEditor_substep_value d us
        rw [e] at h
        exact h
      subst hl
      simp [SubgraphVariableEditor.get]

/-- C3. A variable seeded with default `d` and never `set()` yields
`{substep := 0, referent := d}` from `get()`; in particular `get()` succeeds
(returns `some`) on every variable constructed with a default. -/
theorem variable_default_get_substep_zero {α : Type} (d : α) :
    (output_variable d).get = some ⟨0, d⟩
      ∧ ((output_variable d).get).isSome = true :=
  ⟨rfl, rfl⟩

/-- C4. The claim says translating `logical_not(c)` terminates and returns the
engine's logical negation of the translation of the source `c`. On the code it
does not: `_translate_condition` recurses on the annotation itself (not on
`condition.source`), so for every recursion budget and every wrapped condition
the translation exhausts the call depth and raises `RecursionError`, never
returning a value. -/
theorem translate_logical_not_never_terminates (fuel : Nat) (c : PyCond) :
    translate_condition fuel (logical_not c) = .error .recursionLimit := by
  induction fuel with
  | zero => rfl
  | succ n ih =>
      simp only [logical_not] at ih ⊢
      simp only [translate_condition, ne_eq, not_true_eq_false, if_false,
        reduceIte, ih, Except.map]

/-- C5. The claim says `Reference.result()` terminates and returns the
concrete value of its referent, idempotently. On the code it does not: the
method body is `return self.result()`, an unconditional self-call on the
unchanged receiver, so at every recursion depth the call exhausts the call
stack and raises `RecursionError`; it never produces the referent's value. -/
theorem reference_result_self_recursion {α : Type} (fuel : Nat)
    (r : Reference α) :
    Reference.result_call fuel r = .error .recursionLimit
      ∧ Reference.result_call fuel r ≠ .ok r.referent.result := by
  have h : Reference.result_call fuel r = .error .recursionLimit := by
    induction fuel with
    | zero => rfl
    | succ n ih => simpa [Reference.result_call] using ih
  exact ⟨h, by simp [h]⟩

/-- C6. Translating a `_ConditionAnnotation` whose transformation is anything
other than `logical_not` raises `ValueError('... not implemented.')`
immediately (at any positive recursion budget, before any recursion), and
translating a condition value of a type with no handler raises
`ValueError('No handler ...')`: no such condition is silently accepted. -/
theorem translate_condition_errors (fuel : Nat) (source : PyCond)
    (t : String) (tag : String) (ht : t ≠ "logical_not") :
    translate_condition (fuel + 1) (.condAnnot source t)
        = .error .valueNotImplemented
      ∧ translate_condition (fuel + 1) (.otherObj tag)
        = .error .valueNoHandler := by
  refine ⟨?_, rfl⟩
  simp [translate_condition, ht]

/-- Witness for C6 at a concrete unsupported transformation and a concrete
unhandled condition object. -/
theorem translate_condition_errors_witness :
    ("negate" ≠ "logical_not")
      ∧ (translate_condition 1 (.condAnnot (.otherObj "x") "negate")
            = .error .valueNotImplemented
          ∧ translate_condition 1 (.otherObj "y") = .error .valueNoHandler) :=
  ⟨by decide,
   translate_condition_errors 0 (.otherObj "x") "negate" "y" (by decide)⟩

/-- C7. Parsing the single-task argv `["run", "-i", future, "-o",
placeholder]` yields executable `"run"`, no positional arguments, the
one-entry input-file mapping from `"-i"` to the future, and the one-entry
output-file mapping from `"-o"` to the placeholder's path, with no error;
the placeholder's label is registered in `output_file` under the `"-o"`
flag. -/
theorem parse_argv_single_task_scenario (fid : Nat) (lab fp : String) :
    parse_argv (.list [.str "run", .str "-i", .future fid, .str "-o",
        .outputFilePlaceholder lab fp])
      = .ok ({ executable := "run", arguments := [],
               input_files := [(.str "-i", .future fid)],
               output_files := [(.str "-o", fp)] },
             [(lab, ⟨"file", lab, .str "-o"⟩)]) := rfl

/-- C8. For every ensemble argv (a list whose first member is itself a
sequence) whose members all parse, if two members' parses name different
executables then `Executable.create` raises the usage error
`ValueError('Ensemble command line operations must use the same command line
tool.')` — returning no `Executable`, hence before any task is constructed
(task construction is deferred to the lazy `task` property). -/
theorem create_ensemble_executable_mismatch
    (members : List PyObj) (m0 : List PyObj) (rest : List PyObj)
    (parses : List (ParsedArgs × List (String × GetItemFuture)))
    (hm : members = PyObj.list m0 :: rest)
    (hparse : mapExcept parse_argv members = .ok parses)
    (i j : Nat) (hi : i < parses.length) (hj : j < parses.length)
    (hne : (parses.get ⟨i, hi⟩).1.executable
            ≠ (parses.get ⟨j, hj⟩).1.executable) :
    Executable.create (.list members)
      = .error (.valueError
          "Ensemble command line operations must use the same command line tool") := by
  subst hm
  obtain ⟨p0, ps, hp0, hps, hres⟩ := mapExcept_cons_ok hparse
  subst hres
  have hall : ensembleSameExecutable p0.1 ((p0 :: ps).map Prod.fst) = false := by
    by_contra hcon
    have htrue : ensembleSameExecutable p0.1 ((p0 :: ps).map Prod.fst) = true := by
      revert hcon
      cases ensembleSameExecutable p0.1 ((p0 :: ps).map Prod.fst) <;> simp
    rw [ensembleSameExecutable, List.all_eq_true] at htrue
    have hmemi : ((p0 :: ps).get ⟨i, hi⟩).1 ∈ (p0 :: ps).map Prod.fst :=
      List.mem_map_of_mem Prod.fst (List.get_mem _ _ _)
    have hmemj : ((p0 :: ps).get ⟨j, hj⟩).1 ∈ (p0 :: ps).map Prod.fst :=
      List.mem_map_of_mem Prod.fst (List.get_mem _ _ _)
    have hei : p0.1.executable = ((p0 :: ps).get ⟨i, hi⟩).1.executable :=
      beq_iff_eq.mp (htrue _ hmemi)
    have hej : p0.1.executable = ((p0 :: ps).get ⟨j, hj⟩).1.executable :=
      beq_iff_eq.mp (htrue _ hmemj)
    exact hne (hei ▸ hej)
  simp only [List.map_cons] at hall
  simp [Executable.create, PyObj.isSequence, PyObj.isStrOrBytes, PyObj.pyLen,
    hparse, hall]

/-- Witness for C8 at a concrete two-member ensemble naming different
executables. -/
theorem create_ensemble_executable_mismatch_witness :
    (mapExcept parse_argv [PyObj.list [PyObj.str "a"], PyObj.list [PyObj.str "b"]]
        = .ok [({ executable := "a" }, []), ({ executable := "b" }, [])])
      ∧ Executable.create
          (.list [PyObj.list [PyObj.str "a"], PyObj.list [PyObj.str "b"]])
        = .error (.valueError
            "Ensemble command line operations must use the same command line tool") := by
  refine ⟨rfl, ?_⟩
  exact create_ensemble_executable_mismatch
    [PyObj.list [PyObj.str "a"], PyObj.list [PyObj.str "b"]]
    [PyObj.str "a"] [PyObj.list [PyObj.str "b"]]
    [({ executable := "a" }, []), ({ executable := "b" }, [])]
    rfl rfl 0 1 (by decide) (by decide) (by decide)

/-- C9. `get()` is read-only: the post-state of a `get` call equals the
pre-state, two consecutive `get()` calls with no intervening `set()` return
equal references, and removing all `get` calls from any call sequence leaves
the final editor state unchanged — later calls observe nothing from
interposed `get`s. -/
theorem variable_get_is_readonly {α : Type} (st : SubgraphVariableEditor α)
    (ops : List (VarOp α)) :
    st.getM.2 = st
      ∧ (st.getM.2).getM.1 = st.getM.1
      ∧ runVarOps st (ops.filter VarOp.isSet) = runVarOps st ops := by
  refine ⟨rfl, rfl, ?_⟩
  induction ops generalizing st with
  | nil => rfl
  | cons op ops ih =>
      cases op with
      | set v =>
          simp only [List.filter, VarOp.isSet, runVarOps, List.foldl_cons]
          exact ih (applyVarOp st (.set v))
      | get =>
          simp only [List.filter, VarOp.isSet, runVarOps, List.foldl_cons]
          exact ih st

/-- C10. `Executable.create` rejects a bare string, a bytes object, and an
empty sequence with a `TypeError` raised by its first statement — before any
parsing or task construction — and `_parse_argv` enforces the same
precondition with its own leading `TypeError` check on each individual argv
sequence. -/
theorem create_and_parse_reject_invalid_argv (s : String) (n : Nat) :
    Executable.create (.str s)
        = .error (.typeError "argv must be a sequence of command line arguments")
      ∧ Executable.create (.bytes n)
        = .error (.typeError "argv must be a sequence of command line arguments")
      ∧ Executable.create (.list [])
        = .error (.typeError "argv must be a sequence of command line arguments")
      ∧ parse_argv (.str s)
        = .error (.typeError "argv must be the array of command line arguments")
      ∧ parse_argv (.bytes n)
        = .error (.typeError "argv must be the array of command line arguments")
      ∧ parse_argv (.list [])
        = .error (.typeError "argv must be the array of command line arguments") :=
  ⟨rfl, rfl, rfl, rfl, rfl, rfl⟩

end ScalemsWorkshop
